import Mathlib

/-!
Verification of the exoskeleton telemetry dashboard client core.

The embedded code is `src/frontend/src/hooks/useWebSocket.ts` (connection
lifecycle manager and message handler), the derived-state helpers of
`src/frontend/src/App.tsx` (`formatUptime`, `getBatteryColor`, the inline
motor-temperature class expression), and the `TelemetryData` schema of
`src/frontend/src/types/telemetry.ts`.

Modelling conventions:
* JavaScript numbers are modelled as `Rat` (exact float semantics play no
  role in any claim: only order comparisons, floor, and remainder of
  non-negative values appear, on which binary floats and rationals agree
  for the inputs under discussion).
* The host builtin `JSON.parse` is fallible; the message event therefore
  carries `Option Json`: `none` models text on which `JSON.parse` throws
  (the handler catches it), `some j` models a successful parse producing
  the runtime value `j`.  Note the handler stores the parsed value with no
  runtime structural validation, so the stored telemetry is modelled as
  `Option Json`, exactly as at runtime.
* React `useState` cells of the hook are gathered into one record
  `HookState`; each transport callback is a total function on it.
-/

namespace ExoDash

/-- Runtime JSON values, the result type of the host `JSON.parse`.
Numbers are modelled as rationals, objects as ordered key-value lists. -/
inductive Json where
  | null : Json
  | bool (b : Bool) : Json
  | num (q : Rat) : Json
  | str (s : String) : Json
  | arr (elems : List Json) : Json
  | obj (fields : List (String × Json)) : Json
deriving Repr

/-- Connection state of the hook, from
`export type ConnectionState = 'connecting' | 'connected' | 'disconnected' | 'error'`
in `useWebSocket.ts`. -/
inductive ConnectionState where
  | connecting
  | connected
  | disconnected
  | error
deriving DecidableEq, Repr

/-- Transport events the hook installs callbacks for: `ws.onopen`,
`ws.onmessage`, `ws.onerror`, `ws.onclose`.  The message event carries the
result of the `JSON.parse` attempt on `event.data` (see module comment). -/
inductive WsEvent where
  | onopen
  | onmessage (parsed : Option Json)
  | onerror
  | onclose
deriving Repr

/-- The three `useState` cells of `useWebSocket`:
`telemetry`, `connectionState`, `error`. -/
structure HookState where
  telemetry : Option Json
  connectionState : ConnectionState
  error : Option String
deriving Repr

/-- Initial `useState` values of the hook:
`useState<TelemetryData | null>(null)`, `useState<ConnectionState>('disconnected')`,
`useState<string | null>(null)`. -/
def hookInit : HookState :=
  { telemetry := none, connectionState := .disconnected, error := none }

/-- The effect body of `useWebSocket` up to the creation of the WebSocket
(the connection manager): `setConnectionState('connecting'); setError(null);`
followed by `new WebSocket(url)`.  It runs before any transport event can be
delivered. -/
def mountEffect (st : HookState) : HookState :=
  { st with connectionState := .connecting, error := none }

/-- One transport callback of `useWebSocket.ts`, as a total state update:
* `onopen`: `setConnectionState('connected'); setError(null);`
* `onmessage`: `try { const data = JSON.parse(event.data); setTelemetry(data); } catch { }`
  — a failed parse is caught and changes nothing; a successful parse stores
  the parsed value verbatim (there is no structural check);
* `onerror`: `setConnectionState('error'); setError('WebSocket connection error');`
* `onclose`: `setConnectionState('disconnected');`. -/
def step : WsEvent → HookState → HookState
  | .onopen, st => { st with connectionState := .connected, error := none }
  | .onmessage parsed, st =>
      match parsed with
      | some data => { st with telemetry := some data }
      | none => st
  | .onerror, st =>
      { st with connectionState := .error, error := some "WebSocket connection error" }
  | .onclose, st => { st with connectionState := .disconnected }

/-- States visited when a list of transport events is delivered in order,
starting from `st` (inclusive of `st`). -/
def traceStates (st : HookState) (events : List WsEvent) : List HookState :=
  events.scanl (fun s e => step e s) st

/-- The `isConnected` field of the hook result:
`isConnected: connectionState === 'connected'`. -/
def isConnected (st : HookState) : Bool :=
  st.connectionState = .connected

/-! WebSocket `readyState` constants of the host API (numeric per the
WHATWG WebSocket interface): `CONNECTING = 0`, `OPEN = 1`, `CLOSING = 2`,
`CLOSED = 3`. -/

/-- `WebSocket.CONNECTING`. -/
def wsCONNECTING : Nat := 0

/-- `WebSocket.OPEN`. -/
def wsOPEN : Nat := 1

/-- `WebSocket.CLOSING`. -/
def wsCLOSING : Nat := 2

/-- `WebSocket.CLOSED`. -/
def wsCLOSED : Nat := 3

/-- The effect cleanup of `useWebSocket.ts`:
`if (ws.readyState === WebSocket.OPEN || ws.readyState === WebSocket.CONNECTING) { ws.close(); }`.
Result: the readyState after the call and whether `ws.close()` was issued.
Per the host API, `close()` on an OPEN or CONNECTING socket moves it to
CLOSING; when the guard fails nothing is called and the state is unchanged. -/
def effectCleanup (readyState : Nat) : Nat × Bool :=
  if readyState = wsOPEN ∨ readyState = wsCONNECTING then (wsCLOSING, true)
  else (readyState, false)

/-! ### Derived-state helpers of `App.tsx` -/

/-- `getBatteryColor` of `App.tsx`:
`if (percentage > 50) return 'text-green-400'; if (percentage > 20) return 'text-yellow-400'; return 'text-red-400';`. -/
def getBatteryColor (percentage : Rat) : String :=
  if percentage > 50 then "text-green-400"
  else if percentage > 20 then "text-yellow-400"
  else "text-red-400"

/-- The inline motor-temperature class expression of `App.tsx`:
`motor.temperature > 60 ? 'text-red-400' : motor.temperature > 50 ? 'text-yellow-400' : ''`. -/
def motorTempClass (temperature : Rat) : String :=
  if temperature > 60 then "text-red-400"
  else if temperature > 50 then "text-yellow-400"
  else ""

/-- JavaScript truncation toward zero, as performed by the `%` operator on
numbers before the remainder is formed. -/
def jsTrunc (q : Rat) : Int :=
  if q < 0 then -⌊-q⌋ else ⌊q⌋

/-- The JavaScript `%` operator on numbers: `a % b = a - b * trunc(a / b)`
(truncated remainder). -/
def jsMod (a b : Rat) : Rat :=
  a - b * jsTrunc (a / b)

/-- JavaScript `String.prototype.padStart(2, '0')`. -/
def padStart2 (s : String) : String :=
  if s.length < 2 then String.mk (List.replicate (2 - s.length) '0') ++ s else s

/-- `n.toString().padStart(2, '0')` for an integer-valued number `n`. -/
def pad2 (n : Int) : String :=
  padStart2 (toString n)

/-- `formatUptime` of `App.tsx`:
`const hours = Math.floor(seconds / 3600); const minutes = Math.floor((seconds % 3600) / 60); const secs = Math.floor(seconds % 60);`
joined as zero-padded `HH:MM:SS`. -/
def formatUptime (seconds : Rat) : String :=
  let hours : Int := ⌊seconds / 3600⌋
  let minutes : Int := ⌊jsMod seconds 3600 / 60⌋
  let secs : Int := ⌊jsMod seconds 60⌋
  pad2 hours ++ ":" ++ pad2 minutes ++ ":" ++ pad2 secs

/-- The `HH:MM:SS` rendering of a whole number of seconds: hours are
`n / 3600`, minutes `n % 3600 / 60`, seconds `n % 60` in integer
arithmetic.  Used to state that `formatUptime` truncates its input to whole
seconds and then performs exact integer division. -/
def natUptime (n : Nat) : String :=
  pad2 ((n / 3600 : Nat) : Int) ++ ":" ++ pad2 ((n % 3600 / 60 : Nat) : Int)
    ++ ":" ++ pad2 ((n % 60 : Nat) : Int)

/-! ### The `TelemetryData` schema of `types/telemetry.ts` -/

/-- `enum MotorStatus { Ok = 'ok', Warning = 'warning', Error = 'error', Offline = 'offline' }`. -/
inductive MotorStatus where
  | ok
  | warning
  | error
  | offline
deriving DecidableEq, Repr

/-- The string value of a `MotorStatus` member. -/
def MotorStatus.toStr : MotorStatus → String
  | .ok => "ok"
  | .warning => "warning"
  | .error => "error"
  | .offline => "offline"

/-- `enum SystemHealthStatus { Healthy = 'healthy', Degraded = 'degraded', Critical = 'critical' }`. -/
inductive SystemHealthStatus where
  | healthy
  | degraded
  | critical
deriving DecidableEq, Repr

/-- The string value of a `SystemHealthStatus` member. -/
def SystemHealthStatus.toStr : SystemHealthStatus → String
  | .healthy => "healthy"
  | .degraded => "degraded"
  | .critical => "critical"

/-- `interface JointData { position; velocity; torque }`. -/
structure JointData where
  position : Rat
  velocity : Rat
  torque : Rat
deriving DecidableEq, Repr

/-- `interface JointsData`: one `JointData` for each of the four fixed joints. -/
structure JointsData where
  left_hip : JointData
  left_knee : JointData
  right_hip : JointData
  right_knee : JointData
deriving DecidableEq, Repr

/-- `interface MotorData { current; temperature; status }`. -/
structure MotorData where
  current : Rat
  temperature : Rat
  status : MotorStatus
deriving DecidableEq, Repr

/-- `interface MotorsData`: one `MotorData` for each of the four fixed joints. -/
structure MotorsData where
  left_hip : MotorData
  left_knee : MotorData
  right_hip : MotorData
  right_knee : MotorData
deriving DecidableEq, Repr

/-- `interface IMUData { acceleration: [number, number, number]; gyroscope: [number, number, number] }`. -/
structure IMUData where
  acceleration : Rat × Rat × Rat
  gyroscope : Rat × Rat × Rat
deriving DecidableEq, Repr

/-- `interface SensorsData`: one `IMUData` for each of the four fixed joints. -/
structure SensorsData where
  left_hip : IMUData
  left_knee : IMUData
  right_hip : IMUData
  right_knee : IMUData
deriving DecidableEq, Repr

/-- `interface PowerData { battery_percentage; battery_voltage; current_draw }`. -/
structure PowerData where
  battery_percentage : Rat
  battery_voltage : Rat
  current_draw : Rat
deriving DecidableEq, Repr

/-- `interface SystemData { health_status; emergency_stop; error_messages; uptime_seconds }`. -/
structure SystemData where
  health_status : SystemHealthStatus
  emergency_stop : Bool
  error_messages : List String
  uptime_seconds : Rat
deriving DecidableEq, Repr

/-- `interface TelemetryData`: the full snapshot shape. -/
structure TelemetryData where
  timestamp : String
  sequence : Nat
  joints : JointsData
  motors : MotorsData
  sensors : SensorsData
  power : PowerData
  system : SystemData
deriving DecidableEq, Repr

/-! ### Reading a runtime JSON value at the `TelemetryData` shape -/

/-- Property access `j[k]` on a runtime JSON value: defined on objects only. -/
def Json.getField (j : Json) (k : String) : Option Json :=
  match j with
  | .obj fields => fields.lookup k
  | _ => none

/-- A runtime value read as a string. -/
def Json.asStr : Json → Option String
  | .str s => some s
  | _ => none

/-- A runtime value read as a number. -/
def Json.asNum : Json → Option Rat
  | .num q => some q
  | _ => none

/-- A runtime value read as a boolean. -/
def Json.asBool : Json → Option Bool
  | .bool b => some b
  | _ => none

/-- A runtime value read as a non-negative integer. -/
def Json.asNat : Json → Option Nat
  | .num q => if q.den = 1 ∧ 0 ≤ q.num then some q.num.toNat else none
  | _ => none

/-- A runtime value read as a `MotorStatus` enum string. -/
def decodeMotorStatus : Json → Option MotorStatus
  | .str "ok" => some .ok
  | .str "warning" => some .warning
  | .str "error" => some .error
  | .str "offline" => some .offline
  | _ => none

/-- A runtime value read as a `SystemHealthStatus` enum string. -/
def decodeHealthStatus : Json → Option SystemHealthStatus
  | .str "healthy" => some .healthy
  | .str "degraded" => some .degraded
  | .str "critical" => some .critical
  | _ => none

/-- A runtime value read as a 3-vector of numbers. -/
def decodeVec3 : Json → Option (Rat × Rat × Rat)
  | .arr [a, b, c] => do pure (← a.asNum, ← b.asNum, ← c.asNum)
  | _ => none

/-- Elementwise string reading of a list of runtime values; fails if any
element is not a string. -/
def decodeStrings : List Json → Option (List String)
  | [] => some []
  | j :: rest => do pure ((← j.asStr) :: (← decodeStrings rest))

/-- A runtime value read as an array of strings. -/
def decodeStrList : Json → Option (List String)
  | .arr xs => decodeStrings xs
  | _ => none

/-- A runtime value read at the `JointData` shape. -/
def decodeJointData (j : Json) : Option JointData := do
  let p ← (← j.getField "position").asNum
  let v ← (← j.getField "velocity").asNum
  let t ← (← j.getField "torque").asNum
  pure ⟨p, v, t⟩

/-- A runtime value read at the `JointsData` shape: all four joint
identifiers are required. -/
def decodeJoints (j : Json) : Option JointsData := do
  let lh ← decodeJointData (← j.getField "left_hip")
  let lk ← decodeJointData (← j.getField "left_knee")
  let rh ← decodeJointData (← j.getField "right_hip")
  let rk ← decodeJointData (← j.getField "right_knee")
  pure ⟨lh, lk, rh, rk⟩

/-- A runtime value read at the `MotorData` shape. -/
def decodeMotorData (j : Json) : Option MotorData := do
  let c ← (← j.getField "current").asNum
  let t ← (← j.getField "temperature").asNum
  let s ← decodeMotorStatus (← j.getField "status")
  pure ⟨c, t, s⟩

/-- A runtime value read at the `MotorsData` shape: all four joint
identifiers are required. -/
def decodeMotors (j : Json) : Option MotorsData := do
  let lh ← decodeMotorData (← j.getField "left_hip")
  let lk ← decodeMotorData (← j.getField "left_knee")
  let rh ← decodeMotorData (← j.getField "right_hip")
  let rk ← decodeMotorData (← j.getField "right_knee")
  pure ⟨lh, lk, rh, rk⟩

/-- A runtime value read at the `IMUData` shape. -/
def decodeIMU (j : Json) : Option IMUData := do
  let a ← decodeVec3 (← j.getField "acceleration")
  let g ← decodeVec3 (← j.getField "gyroscope")
  pure ⟨a, g⟩

/-- A runtime value read at the `SensorsData` shape: all four joint
identifiers are required. -/
def decodeSensors (j : Json) : Option SensorsData := do
  let lh ← decodeIMU (← j.getField "left_hip")
  let lk ← decodeIMU (← j.getField "left_knee")
  let rh ← decodeIMU (← j.getField "right_hip")
  let rk ← decodeIMU (← j.getField "right_knee")
  pure ⟨lh, lk, rh, rk⟩

/-- A runtime value read at the `PowerData` shape. -/
def decodePower (j : Json) : Option PowerData := do
  let bp ← (← j.getField "battery_percentage").asNum
  let bv ← (← j.getField "battery_voltage").asNum
  let cd ← (← j.getField "current_draw").asNum
  pure ⟨bp, bv, cd⟩

/-- A runtime value read at the `SystemData` shape. -/
def decodeSystem (j : Json) : Option SystemData := do
  let hs ← decodeHealthStatus (← j.getField "health_status")
  let es ← (← j.getField "emergency_stop").asBool
  let em ← decodeStrList (← j.getField "error_messages")
  let us ← (← j.getField "uptime_seconds").asNum
  pure ⟨hs, es, em, us⟩

/-- A runtime JSON value read at the full `TelemetryData` shape of
`types/telemetry.ts`: every field must be present with the declared type,
and the joint mappings must supply all four joint identifiers.  This is
the structural validity predicate of the snapshot schema; the message
handler of `useWebSocket.ts` performs none of these checks at runtime. -/
def decodeTelemetry (j : Json) : Option TelemetryData := do
  let ts ← (← j.getField "timestamp").asStr
  let seq ← (← j.getField "sequence").asNat
  let joints ← decodeJoints (← j.getField "joints")
  let motors ← decodeMotors (← j.getField "motors")
  let sensors ← decodeSensors (← j.getField "sensors")
  let power ← decodePower (← j.getField "power")
  let system ← decodeSystem (← j.getField "system")
  pure ⟨ts, seq, joints, motors, sensors, power, system⟩

/-! ### Encoding a snapshot as the wire JSON object

Modelled from the spec: the backend producing the wire frames is not under
`src/`; section 6 of the spec fixes the inbound message schema as "one JSON
object per message matching the `TelemetrySnapshot` shape", which is the
`TelemetryData` shape of `types/telemetry.ts` encoded field by field. -/

/-- Modelled from the spec: wire encoding of a `JointData` record. -/
def encodeJointData (d : JointData) : Json :=
  .obj [("position", .num d.position), ("velocity", .num d.velocity),
        ("torque", .num d.torque)]

/-- Modelled from the spec: wire encoding of the `joints` mapping, with all
four joint identifiers present. -/
def encodeJoints (j : JointsData) : Json :=
  .obj [("left_hip", encodeJointData j.left_hip),
        ("left_knee", encodeJointData j.left_knee),
        ("right_hip", encodeJointData j.right_hip),
        ("right_knee", encodeJointData j.right_knee)]

/-- Modelled from the spec: wire encoding of a `MotorData` record. -/
def encodeMotorData (m : MotorData) : Json :=
  .obj [("current", .num m.current), ("temperature", .num m.temperature),
        ("status", .str m.status.toStr)]

/-- Modelled from the spec: wire encoding of the `motors` mapping. -/
def encodeMotors (m : MotorsData) : Json :=
  .obj [("left_hip", encodeMotorData m.left_hip),
        ("left_knee", encodeMotorData m.left_knee),
        ("right_hip", encodeMotorData m.right_hip),
        ("right_knee", encodeMotorData m.right_knee)]

/-- Modelled from the spec: wire encoding of a 3-vector as a JSON array. -/
def encodeVec3 (v : Rat × Rat × Rat) : Json :=
  .arr [.num v.1, .num v.2.1, .num v.2.2]

/-- Modelled from the spec: wire encoding of an `IMUData` record. -/
def encodeIMU (s : IMUData) : Json :=
  .obj [("acceleration", encodeVec3 s.acceleration),
        ("gyroscope", encodeVec3 s.gyroscope)]

/-- Modelled from the spec: wire encoding of the `sensors` mapping. -/
def encodeSensors (s : SensorsData) : Json :=
  .obj [("left_hip", encodeIMU s.left_hip),
        ("left_knee", encodeIMU s.left_knee),
        ("right_hip", encodeIMU s.right_hip),
        ("right_knee", encodeIMU s.right_knee)]

/-- Modelled from the spec: wire encoding of a `PowerData` record. -/
def encodePower (p : PowerData) : Json :=
  .obj [("battery_percentage", .num p.battery_percentage),
        ("battery_voltage", .num p.battery_voltage),
        ("current_draw", .num p.current_draw)]

/-- Modelled from the spec: wire encoding of a `SystemData` record. -/
def encodeSystem (s : SystemData) : Json :=
  .obj [("health_status", .str s.health_status.toStr),
        ("emergency_stop", .bool s.emergency_stop),
        ("error_messages", .arr (s.error_messages.map Json.str)),
        ("uptime_seconds", .num s.uptime_seconds)]

/-- Modelled from the spec: wire encoding of a full `TelemetryData`
snapshot as one JSON object. -/
def encodeTelemetry (t : TelemetryData) : Json :=
  .obj [("timestamp", .str t.timestamp),
        ("sequence", .num (t.sequence : Rat)),
        ("joints", encodeJoints t.joints),
        ("motors", encodeMotors t.motors),
        ("sensors", encodeSensors t.sensors),
        ("power", encodePower t.power),
        ("system", encodeSystem t.system)]

/-- A concrete valid snapshot, used as the previously held telemetry in
counterexample states. -/
def sampleTelemetry : TelemetryData where
  timestamp := "2025-01-01T00:00:00Z"
  sequence := 7
  joints :=
    { left_hip := ⟨1, 0, 0⟩, left_knee := ⟨0, 1, 0⟩
      right_hip := ⟨0, 0, 1⟩, right_knee := ⟨0, 0, 0⟩ }
  motors :=
    { left_hip := ⟨1, 30, .ok⟩, left_knee := ⟨1, 30, .ok⟩
      right_hip := ⟨1, 30, .ok⟩, right_knee := ⟨1, 30, .ok⟩ }
  sensors :=
    { left_hip := ⟨(0, 0, 0), (0, 0, 0)⟩, left_knee := ⟨(0, 0, 0), (0, 0, 0)⟩
      right_hip := ⟨(0, 0, 0), (0, 0, 0)⟩, right_knee := ⟨(0, 0, 0), (0, 0, 0)⟩ }
  power := ⟨80, 48, 2⟩
  system := ⟨.healthy, false, [], 10⟩

/-- A hook state that already holds a validated snapshot over a live
connection. -/
def stWithSnapshot : HookState :=
  { telemetry := some (encodeTelemetry sampleTelemetry)
    connectionState := .connected, error := none }

/-! ## Helper lemmas -/

/-- Floor of a rational divided by a positive integer is integer division
of the floor. -/
theorem floor_div_int_pos (a : Rat) {n : Int} (hn : 0 < n) :
    ⌊a / (n : Rat)⌋ = ⌊a⌋ / n := by
  have hn' : (0:Rat) < (n:Rat) := by exact_mod_cast hn
  have h0 := Int.ediv_add_emod ⌊a⌋ n
  have h1 : 0 ≤ ⌊a⌋ % n := Int.emod_nonneg _ (ne_of_gt hn)
  have h2 : ⌊a⌋ % n < n := Int.emod_lt_of_pos _ hn
  have hfl : ((⌊a⌋:Rat)) ≤ a := Int.floor_le a
  have hfu : a < ⌊a⌋ + 1 := Int.lt_floor_add_one a
  rw [Int.floor_eq_iff]
  constructor
  · rw [le_div_iff₀ hn']
    have key : (⌊a⌋ / n) * n ≤ ⌊a⌋ := by nlinarith [h0, h1]
    have : ((⌊a⌋ / n : Int) : Rat) * (n:Rat) ≤ ((⌊a⌋ : Int) : Rat) := by
      exact_mod_cast key
    linarith
  · rw [div_lt_iff₀ hn']
    have key : ⌊a⌋ + 1 ≤ (⌊a⌋ / n) * n + n := by nlinarith [h0, h2]
    have : ((⌊a⌋:Rat)) + 1 ≤ ((⌊a⌋ / n : Int):Rat) * (n:Rat) + (n:Rat) := by
      exact_mod_cast key
    nlinarith [hfu]

/-- On non-negative arguments, JavaScript truncation agrees with floor. -/
theorem jsTrunc_of_nonneg (q : Rat) (h : 0 ≤ q) : jsTrunc q = ⌊q⌋ := by
  rw [jsTrunc, if_neg (not_lt.mpr h)]

/-- On a non-negative number of seconds, `formatUptime` renders the
truncated whole number of seconds in integer `HH:MM:SS` arithmetic. -/
theorem formatUptime_eq_natUptime (s : Rat) (h : 0 ≤ s) :
    formatUptime s = natUptime ⌊s⌋.toNat := by
  have hn0 : 0 ≤ ⌊s⌋ := Int.floor_nonneg.mpr h
  have hh : ⌊s / (3600:Rat)⌋ = ⌊s⌋ / 3600 := by
    rw [show ((3600:Rat)) = ((3600:Int):Rat) from by norm_num,
      floor_div_int_pos s (by norm_num)]
  have hq : (0:Rat) ≤ s / 3600 := by positivity
  have hm1 : jsMod s 3600 = s - 3600 * ((⌊s⌋ / 3600 : Int) : Rat) := by
    rw [jsMod, jsTrunc_of_nonneg _ hq, hh]
  have hm2 : ⌊jsMod s 3600 / (60:Rat)⌋ = (⌊s⌋ - 3600 * (⌊s⌋ / 3600)) / 60 := by
    rw [hm1, show ((60:Rat)) = ((60:Int):Rat) from by norm_num,
      floor_div_int_pos _ (by norm_num)]
    congr 1
    rw [show s - 3600 * ((⌊s⌋ / 3600 : Int):Rat)
        = s - ((3600 * (⌊s⌋ / 3600) : Int):Rat) from by push_cast; ring,
      Int.floor_sub_int]
  have hs60 : ⌊s / (60:Rat)⌋ = ⌊s⌋ / 60 := by
    rw [show ((60:Rat)) = ((60:Int):Rat) from by norm_num,
      floor_div_int_pos s (by norm_num)]
  have hsec : ⌊jsMod s 60⌋ = ⌊s⌋ - 60 * (⌊s⌋ / 60) := by
    rw [jsMod, jsTrunc_of_nonneg _ (by positivity), hs60,
      show s - 60 * ((⌊s⌋ / 60 : Int):Rat) = s - ((60 * (⌊s⌋ / 60) : Int):Rat)
        from by push_cast; ring,
      Int.floor_sub_int]
  have e1 : ⌊s⌋ / 3600 = ((⌊s⌋.toNat / 3600 : Nat) : Int) := by omega
  have e2 : (⌊s⌋ - 3600 * ((⌊s⌋.toNat / 3600 : Nat) : Int)) / 60
      = ((⌊s⌋.toNat % 3600 / 60 : Nat) : Int) := by omega
  have e3 : ⌊s⌋ - 60 * (⌊s⌋ / 60) = ((⌊s⌋.toNat % 60 : Nat) : Int) := by omega
  simp only [formatUptime, natUptime, hh, hm2, hsec, e1, e2, e3]

/-- Reading back the encoded `MotorStatus` string recovers the member. -/
theorem decodeMotorStatus_toStr (m : MotorStatus) :
    decodeMotorStatus (.str m.toStr) = some m := by cases m <;> rfl

/-- Reading back the encoded `SystemHealthStatus` string recovers the member. -/
theorem decodeHealthStatus_toStr (s : SystemHealthStatus) :
    decodeHealthStatus (.str s.toStr) = some s := by cases s <;> rfl

/-- Reading back an encoded 3-vector recovers it. -/
theorem decodeVec3_encode (v : Rat × Rat × Rat) :
    decodeVec3 (encodeVec3 v) = some v := rfl

/-- Reading back an encoded string list recovers it. -/
theorem decodeStrList_encode (xs : List String) :
    decodeStrList (.arr (xs.map Json.str)) = some xs := by
  induction xs with
  | nil => rfl
  | cons x xs ih =>
      simp only [decodeStrList, List.map_cons, decodeStrings, Json.asStr] at *
      simp [ih]

/-- Reading back an encoded `JointData` record recovers it. -/
theorem decodeJointData_encode (d : JointData) :
    decodeJointData (encodeJointData d) = some d := by
  cases d; rfl

/-- Reading back the encoded `joints` mapping recovers it. -/
theorem decodeJoints_encode (j : JointsData) :
    decodeJoints (encodeJoints j) = some j := rfl

/-- Reading back an encoded `MotorData` record recovers it. -/
theorem decodeMotorData_encode (m : MotorData) :
    decodeMotorData (encodeMotorData m) = some m := by
  cases m with
  | mk c t st => cases st <;> rfl

/-- Reading back the encoded `motors` mapping recovers it. -/
theorem decodeMotors_encode (m : MotorsData) :
    decodeMotors (encodeMotors m) = some m := by
  simp [decodeMotors, encodeMotors, Json.getField, List.lookup,
    decodeMotorData_encode]

/-- Reading back the encoded `sensors` mapping recovers it. -/
theorem decodeSensors_encode (s : SensorsData) :
    decodeSensors (encodeSensors s) = some s := rfl

/-- Reading back an encoded `PowerData` record recovers it. -/
theorem decodePower_encode (p : PowerData) :
    decodePower (encodePower p) = some p := rfl

/-- Reading a number encoding a natural recovers it. -/
theorem asNat_natCast (n : Nat) : Json.asNat (.num (n : Rat)) = some n := by
  simp [Json.asNat]

/-- Reading back an encoded `SystemData` record recovers it. -/
theorem decodeSystem_encode (s : SystemData) :
    decodeSystem (encodeSystem s) = some s := by
  simp [decodeSystem, encodeSystem, Json.getField, List.lookup,
    decodeHealthStatus_toStr, decodeStrList_encode, Json.asBool, Json.asNum]

/-- Reading back the full encoded snapshot recovers it. -/
theorem decodeTelemetry_encode (t : TelemetryData) :
    decodeTelemetry (encodeTelemetry t) = some t := by
  simp [decodeTelemetry, encodeTelemetry, Json.getField, List.lookup,
    Json.asStr, asNat_natCast, decodeJoints_encode, decodeMotors_encode,
    decodeSensors_encode, decodePower_encode, decodeSystem_encode]

/-! ## Claim theorems -/

/-- C1 counterexample: the payload `\x7b\x7d` (the empty JSON object) is
well-formed JSON but supplies none of the four joint identifiers under
`joints`; `decodeTelemetry` rejects it as structurally invalid, yet the
message handler of `useWebSocket.ts` installs it wholesale, changing the
previously held snapshot.  The claimed frame validation does not exist in
the handler. -/
theorem onmessage_accepts_partial_snapshot :
    decodeTelemetry (Json.obj []) = none
    ∧ (step (.onmessage (some (Json.obj []))) stWithSnapshot).telemetry
        = some (Json.obj [])
    ∧ (step (.onmessage (some (Json.obj []))) stWithSnapshot).telemetry
        ≠ stWithSnapshot.telemetry := by
  refine ⟨rfl, rfl, ?_⟩
  simp [step, stWithSnapshot, encodeTelemetry]

/-- C1 (amended): the message handler rejects exactly the payloads whose
text fails to decode, leaving the state unchanged; every successfully
decoded payload — including one missing joint identifiers under `joints`,
`motors`, or `sensors` — is installed verbatim as the new snapshot, with
no structural validation and hence no rejection of partial snapshots. -/
theorem onmessage_installs_any_decoded_payload :
    ∀ (st : HookState) (j : Json),
      (step (.onmessage (some j)) st).telemetry = some j
      ∧ step (.onmessage none) st = st :=
  fun _ _ => ⟨rfl, rfl⟩

/-- C2: a non-well-formed payload (one on which `JSON.parse` throws, caught
by the handler) changes nothing: the handler is a total function, the
snapshot is preserved, and no message event — failed or not — touches the
connection state or the visible error field. -/
theorem onmessage_malformed_is_silent :
    ∀ (st : HookState) (d : Option Json),
      step (.onmessage none) st = st
      ∧ (step (.onmessage d) st).connectionState = st.connectionState
      ∧ (step (.onmessage d) st).error = st.error := by
  intro st d
  refine ⟨rfl, ?_, ?_⟩ <;> cases d <;> rfl

/-- C3: transport open sets `connected` and clears the error; transport
error sets `error` and the fixed description string; transport close sets
`disconnected` from any prior state.  A normal session therefore traces
`connecting, connected, disconnected` with no intervening error state, and
a failed handshake traces `connecting, error`, moved to `disconnected` by
the subsequent close event. -/
theorem connection_state_machine :
    (∀ st, (step .onopen st).connectionState = .connected
      ∧ (step .onopen st).error = none)
    ∧ (∀ st, (step .onerror st).connectionState = .error
      ∧ (step .onerror st).error = some "WebSocket connection error")
    ∧ (∀ st, (step .onclose st).connectionState = .disconnected)
    ∧ (traceStates (mountEffect hookInit) [.onopen, .onclose]).map
        HookState.connectionState = [.connecting, .connected, .disconnected]
    ∧ (traceStates (mountEffect hookInit) [.onerror, .onclose]).map
        HookState.connectionState = [.connecting, .error, .disconnected] :=
  ⟨fun _ => ⟨rfl, rfl⟩, fun _ => ⟨rfl, rfl⟩, fun _ => rfl, rfl, rfl⟩

/-- C4: the effect body of the hook sets the connection state to
`connecting` before the WebSocket — the connection manager — is created,
so immediately on manager creation, before any transport event, the
exposed state is `connecting`, whatever the prior cell values were. -/
theorem initial_state_is_connecting :
    (mountEffect hookInit).connectionState = .connecting
    ∧ ∀ st, (mountEffect st).connectionState = .connecting :=
  ⟨rfl, fun _ => rfl⟩

/-- C5: `getBatteryColor` returns the green ("good") class exactly when
the percentage exceeds 50, the yellow ("warning") class exactly when it is
in (20, 50], and the red ("critical") class exactly when it is at most 20;
in particular 50.0 is yellow, 50.1 green, 20.0 red, 20.1 yellow. -/
theorem battery_band_thresholds :
    (∀ p : Rat,
      (getBatteryColor p = "text-green-400" ↔ 50 < p)
      ∧ (getBatteryColor p = "text-yellow-400" ↔ 20 < p ∧ p ≤ 50)
      ∧ (getBatteryColor p = "text-red-400" ↔ p ≤ 20))
    ∧ getBatteryColor 50 = "text-yellow-400"
    ∧ getBatteryColor (50.1 : Rat) = "text-green-400"
    ∧ getBatteryColor 20 = "text-red-400"
    ∧ getBatteryColor (20.1 : Rat) = "text-yellow-400" := by
  refine ⟨?_, by norm_num [getBatteryColor], by norm_num [getBatteryColor],
    by norm_num [getBatteryColor], by norm_num [getBatteryColor]⟩
  intro p
  unfold getBatteryColor
  split_ifs with h1 h2
  · exact ⟨iff_of_true rfl h1,
      iff_of_false (by decide) (fun hc => by linarith [hc.2]),
      iff_of_false (by decide) (fun hp => by linarith)⟩
  · exact ⟨iff_of_false (by decide) h1,
      iff_of_true rfl ⟨h2, not_lt.mp h1⟩,
      iff_of_false (by decide) (fun hp => by linarith)⟩
  · exact ⟨iff_of_false (by decide) h1,
      iff_of_false (by decide) (fun hc => absurd hc.1 h2),
      iff_of_true rfl (not_lt.mp h2)⟩

/-- C6: `formatUptime` renders a non-negative number of seconds as
zero-padded `HH:MM:SS` of the truncated (not rounded) whole seconds, with
hours by integer division by 3600, minutes from the remainder divided by
60, and seconds from the remainder; in particular 3661.9 renders as
01:01:01, 0 as 00:00:00, and 86399 as 23:59:59. -/
theorem formatUptime_truncated_hhmmss :
    (∀ s : Rat, 0 ≤ s → formatUptime s = natUptime ⌊s⌋.toNat)
    ∧ formatUptime (3661.9 : Rat) = "01:01:01"
    ∧ formatUptime 0 = "00:00:00"
    ∧ formatUptime 86399 = "23:59:59" := by
  refine ⟨formatUptime_eq_natUptime, ?_, ?_, ?_⟩
  · have h1 : ⌊(3661.9:Rat)⌋ = 3661 := by rw [Int.floor_eq_iff]; norm_num
    rw [formatUptime_eq_natUptime _ (by norm_num), h1]; decide
  · have h1 : ⌊(0:Rat)⌋ = 0 := by simp
    rw [formatUptime_eq_natUptime _ le_rfl, h1]; decide
  · have h1 : ⌊(86399:Rat)⌋ = 86399 := by rw [Int.floor_eq_iff]; norm_num
    rw [formatUptime_eq_natUptime _ (by norm_num), h1]; decide

/-- C6 witness: the general clause evaluated at the concrete input 7300
seconds. -/
theorem formatUptime_truncated_hhmmss_witness :
    (0:Rat) ≤ 7300 ∧ formatUptime (7300 : Rat) = natUptime ⌊(7300:Rat)⌋.toNat :=
  ⟨by norm_num, formatUptime_truncated_hhmmss.1 7300 (by norm_num)⟩

/-- C7: the inline motor-temperature class of `App.tsx` is the red
("critical") class exactly when the temperature exceeds 60, the yellow
("warning") class exactly when it is in (50, 60], and the empty class (no
highlight, "normal") exactly when it is at most 50. -/
theorem motor_temperature_band_thresholds :
    ∀ t : Rat,
      (motorTempClass t = "text-red-400" ↔ 60 < t)
      ∧ (motorTempClass t = "text-yellow-400" ↔ 50 < t ∧ t ≤ 60)
      ∧ (motorTempClass t = "" ↔ t ≤ 50) := by
  intro t
  unfold motorTempClass
  split_ifs with h1 h2
  · exact ⟨iff_of_true rfl h1,
      iff_of_false (by decide) (fun hc => by linarith [hc.2]),
      iff_of_false (by decide) (fun hp => by linarith)⟩
  · exact ⟨iff_of_false (by decide) h1,
      iff_of_true rfl ⟨h2, not_lt.mp h1⟩,
      iff_of_false (by decide) (fun hp => by linarith)⟩
  · exact ⟨iff_of_false (by decide) h1,
      iff_of_false (by decide) (fun hc => absurd hc.1 h2),
      iff_of_true rfl (not_lt.mp h2)⟩

/-- C8: the effect cleanup issues `ws.close()` exactly when the readyState
is CONNECTING or OPEN; on a CLOSED or CLOSING socket it is a no-op that
cannot fail (it is a total function), and running the teardown twice never
issues a second close. -/
theorem effect_cleanup_scoped :
    (∀ rs : Nat, (effectCleanup rs).2 = true ↔ rs = wsCONNECTING ∨ rs = wsOPEN)
    ∧ effectCleanup wsCLOSED = (wsCLOSED, false)
    ∧ effectCleanup wsCLOSING = (wsCLOSING, false)
    ∧ (∀ rs : Nat, (effectCleanup (effectCleanup rs).1).2 = false) := by
  refine ⟨?_, by decide, by decide, ?_⟩
  · intro rs
    unfold effectCleanup wsOPEN wsCONNECTING
    split_ifs with h
    · simpa using Or.symm h
    · simpa using fun hc => h (Or.symm hc)
  · intro rs
    by_cases h : rs = wsOPEN ∨ rs = wsCONNECTING
    · have hrw : effectCleanup rs = (wsCLOSING, true) := by
        unfold effectCleanup; exact if_pos h
      rw [hrw]; decide
    · have hrw : effectCleanup rs = (rs, false) := by
        unfold effectCleanup; exact if_neg h
      rw [hrw]
      show (effectCleanup rs).2 = false
      unfold effectCleanup
      rw [if_neg h]

/-- C9: the frame-validation round-trip: for every snapshot value, the
wire encoding reads back at the `TelemetryData` shape as a structurally
equal snapshot, and the message handler, given the successfully parsed
encoding, installs exactly that value as the held telemetry. -/
theorem snapshot_roundtrip :
    ∀ (t : TelemetryData) (st : HookState),
      decodeTelemetry (encodeTelemetry t) = some t
      ∧ (step (.onmessage (some (encodeTelemetry t))) st).telemetry
          = some (encodeTelemetry t) :=
  fun t _ => ⟨decodeTelemetry_encode t, rfl⟩

/-- C10: the `isConnected` result field is computed as the boolean test
`connectionState === connected`, so in every state — in particular after
any transport event — it is true exactly when the connection state is
`connected`. -/
theorem isConnected_iff_connected :
    (∀ st, isConnected st = true ↔ st.connectionState = .connected)
    ∧ ∀ (st : HookState) (e : WsEvent),
        isConnected (step e st) = true ↔ (step e st).connectionState = .connected := by
  have h : ∀ st : HookState, isConnected st = true ↔ st.connectionState = .connected := by
    intro st; simp [isConnected]
  exact ⟨h, fun st e => h _⟩

end ExoDash
